import Mathlib

/-!
Verification of the IntelliSQL application (`Project Files/app.py`).

The program is a linear script: read an API credential from the
environment, build a fixed prompt around the user's question, call a
remote text-generation model, strip markdown code fencing from the
response, execute the resulting string against a local SQLite database
file, and display the rows.

The embedding below follows the source:
  * Python strings are modelled as `List Char` (`Str`).
  * `str.strip` is `pyStrip`, over the ASCII whitespace characters
    recognised by `Char.isWhitespace`.
  * `str.replace(pat, "")` is `removeAll` (left-to-right removal of
    every non-overlapping occurrence of `pat`).
  * The remote generation call is an oracle parameter
    `gen : Str → Except GenErr Str`.
  * The `sqlite3` library (an external dependency, not repository code)
    is modelled by `engineExec`, following its documented behaviour:
    `Cursor.execute` raises `ProgrammingError` when the SQL text holds
    more than one statement, raises an operational error on malformed
    SQL or a missing table, and otherwise executes the single statement
    against the `Students` table described by the prompt.
-/

set_option autoImplicit false

namespace IntelliSQL

/-- Python strings, modelled as lists of characters. -/
abbrev Str := List Char

/-- The backtick character (code point 96). -/
def bTick : Char := Char.ofNat 96

/-- The single-quote character (code point 39), used by SQL string literals. -/
def squote : Char := Char.ofNat 39

/-- `hasPrefix pat s` is `true` when `pat` is a prefix of `s`
(the prefix test used when scanning for an occurrence of a pattern). -/
def hasPrefix : Str → Str → Bool
  | [], _ => true
  | _ :: _, [] => false
  | a :: as, b :: bs => a == b && hasPrefix as bs

/-- Python `str.strip()`: drop whitespace from both ends. -/
def pyStrip (s : Str) : Str :=
  ((s.dropWhile Char.isWhitespace).reverse.dropWhile Char.isWhitespace).reverse

/-- Python `s.replace(pat, "")`: remove every occurrence of `pat` from `s`,
scanning left to right, occurrences non-overlapping. -/
def removeAll (pat : Str) (s : Str) : Str :=
  match s with
  | [] => []
  | c :: cs =>
    if hasPrefix pat (c :: cs) then removeAll pat (List.drop (pat.length - 1) cs)
    else c :: removeAll pat cs
termination_by s.length
decreasing_by
  · simp only [List.length_cons, List.length_drop]; omega
  · simp only [List.length_cons]; omega

/-- The fence-with-language-tag marker removed first by `get_sql_query`. -/
def fenceSql : Str := "```sql".data

/-- The bare triple-backtick fence marker removed second by `get_sql_query`. -/
def fence : Str := "```".data

/-- The post-processing performed by `get_sql_query` on the model's
response text: `response.text.strip()` followed by
`.replace("```sql", "").replace("```", "").strip()`. -/
def clean (raw : Str) : Str :=
  pyStrip (removeAll fence (removeAll fenceSql (pyStrip raw)))

/-! ### The remote generation model and `get_sql_query` -/

/-- An exception raised by the remote generation call
(network failure, auth failure, quota), carrying its message. -/
structure GenErr where
  msg : Str
deriving DecidableEq

/-- The fixed instructional prompt `PROMPT` from the source, verbatim
(the SQL string literal quotes are spliced in as `squote`). -/
def PROMPT : Str :=
  ("\nYou are an expert in converting English questions to SQL queries.\n\nThe SQLite database has ONE table named Students with the following columns:\nname, class, marks, company\n\nRules:\n- Only generate valid SQLite SQL\n- Do NOT explain anything\n- Do NOT add markdown\n- Return ONLY the SQL query\n\nExamples:\n\nQuestion: How many entries are present?\nSQL: SELECT COUNT(*) FROM Students;\n\nQuestion: Tell me all the students studying in MCom class?\nSQL: SELECT * FROM Students WHERE class=").data
    ++ [squote] ++ "MCom".data ++ [squote] ++ ";\n".data

/-- The separator `"\nQuestion: "` concatenated between the prompt and
the user's question. -/
def questionMarker : Str := "\nQuestion: ".data

/-- `get_sql_query(question)`: sends `PROMPT + "\nQuestion: " + question`
to the generation model (`gen`, an oracle for
`model.generate_content(...).text`), and cleans the response.  An
exception from the remote call propagates to the caller. -/
def get_sql_query (gen : Str → Except GenErr Str) (question : Str) : Except GenErr Str :=
  match gen (PROMPT ++ questionMarker ++ question) with
  | .error e => .error e
  | .ok text => .ok (clean text)

/-! ### The database model

The `Students` table assumed by the prompt: rows with columns
`name` (text), `class` (text), `marks` (numeric), `company` (text).
The database state is `none` once the table has been dropped. -/

/-- One row of the `Students` table.  (`cls` stands for the `class`
column; `class` is a reserved word in Lean.) -/
structure Student where
  name : Str
  cls : Str
  marks : Int
  company : Str
deriving DecidableEq

/-- A value in a result row. -/
inductive Value where
  | str (s : Str)
  | int (n : Int)
deriving DecidableEq

/-- A result row, as fetched by `cursor.fetchall()`. -/
abbrev Row := List Value

/-- The persistent database state: the `Students` table, or `none`
after `DROP TABLE`. -/
abbrev DB := Option (List Student)

/-- A `SELECT *` result row for one student, in column order. -/
def Student.toRow (s : Student) : Row :=
  [.str s.name, .str s.cls, .int s.marks, .str s.company]

/-! ### The SQL statements covered by the model

The statement forms relevant to the prompt's schema and examples. -/

/-- Abstract syntax of the modelled SQL statements over `Students`.
`selectWhere x` / `deleteWhere x` / `updateMarksWhere m x` filter on
`class = x`, the only condition form appearing in the prompt. -/
inductive Stmt where
  | selectCount
  | selectAll
  | selectWhere (x : Str)
  | deleteAll
  | deleteWhere (x : Str)
  | dropTable
  | insertRow (st : Student)
  | updateMarksAll (m : Int)
  | updateMarksWhere (m : Int) (x : Str)
deriving DecidableEq

/-- Write statements: `INSERT` / `UPDATE` / `DELETE` / `DROP`. -/
def Stmt.isWrite : Stmt → Bool
  | .selectCount | .selectAll | .selectWhere _ => false
  | .deleteAll | .deleteWhere _ | .dropTable | .insertRow _
  | .updateMarksAll _ | .updateMarksWhere _ _ => true

/-- Executing one parsed statement against an existing `Students`
table: the new database state and the rows `fetchall` returns
(`[]` for non-`SELECT` statements). -/
def execStmt : Stmt → List Student → DB × List Row
  | .selectCount, rows => (some rows, [[.int rows.length]])
  | .selectAll, rows => (some rows, rows.map Student.toRow)
  | .selectWhere x, rows => (some rows, (rows.filter (fun r => r.cls == x)).map Student.toRow)
  | .deleteAll, _ => (some [], [])
  | .deleteWhere x, rows => (some (rows.filter (fun r => !(r.cls == x))), [])
  | .dropTable, _ => (none, [])
  | .insertRow st, rows => (some (rows ++ [st]), [])
  | .updateMarksAll m, rows => (some (rows.map (fun r => ⟨r.name, r.cls, m, r.company⟩)), [])
  | .updateMarksWhere m x, rows =>
      (some (rows.map (fun r => if r.cls == x then ⟨r.name, r.cls, m, r.company⟩ else r)), [])

/-! ### Lexing and parsing of SQL text -/

/-- Split on whitespace, discarding empty fields (accumulator-based so
that it reduces in the kernel). -/
def wordsAux : List Char → Str → List Str
  | acc, [] => if acc.isEmpty then [] else [acc.reverse]
  | acc, c :: cs =>
    if c.isWhitespace then
      if acc.isEmpty then wordsAux [] cs else acc.reverse :: wordsAux [] cs
    else wordsAux (c :: acc) cs

/-- The whitespace-separated words of a string. -/
def words (s : Str) : List Str := wordsAux [] s

/-- Split on a separator character, keeping empty fields. -/
def splitOnCharAux (sep : Char) : List Char → Str → List Str
  | acc, [] => [acc.reverse]
  | acc, c :: cs =>
    if c == sep then acc.reverse :: splitOnCharAux sep [] cs
    else splitOnCharAux sep (c :: acc) cs

/-- All fields of `s` separated by `sep`. -/
def splitOnChar (sep : Char) (s : Str) : List Str := splitOnCharAux sep [] s

/-- Drop one trailing semicolon, if present. -/
def stripSemi (s : Str) : Str :=
  match s.reverse with
  | c :: r => if c == ';' then r.reverse else s
  | [] => s

/-- The numeric value of a decimal digit. -/
def digitVal (c : Char) : Option Nat :=
  if '0' ≤ c ∧ c ≤ '9' then some (c.toNat - 48) else none

/-- Accumulate decimal digits. -/
def parseNatAux : Nat → Str → Option Nat
  | acc, [] => some acc
  | acc, c :: cs =>
    match digitVal c with
    | none => none
    | some d => parseNatAux (acc * 10 + d) cs

/-- A non-empty all-digit string as a number. -/
def parseNat (s : Str) : Option Nat :=
  if s.isEmpty then none else parseNatAux 0 s

/-- A single-quoted SQL string literal (no embedded quote): its contents. -/
def parseQuoted (t : Str) : Option Str :=
  match t with
  | [] => none
  | c :: rest =>
    if c == squote then
      match rest.reverse with
      | [] => none
      | d :: midRev =>
        if d == squote ∧ !midRev.any (fun x => x == squote) then some midRev.reverse
        else none
    else none

/-- A `class='X'` condition token: the quoted value `X`. -/
def parseCond (t : Str) : Option Str :=
  if hasPrefix "class=".data t then parseQuoted (List.drop 6 t) else none

/-- A `marks=N` assignment token: the numeric value `N`. -/
def parseSet (t : Str) : Option Int :=
  if hasPrefix "marks=".data t then (parseNat (List.drop 6 t)).map Int.ofNat
  else none

/-- A `VALUES('name','class',marks,'company')` token: the row to insert. -/
def parseValues (t : Str) : Option Student :=
  if hasPrefix "VALUES(".data t then
    match (List.drop 7 t).reverse with
    | [] => none
    | c :: restRev =>
      if c == ')' then
        match splitOnChar ',' restRev.reverse with
        | [a, b, m, d] =>
          match parseQuoted a, parseQuoted b, parseNat m, parseQuoted d with
          | some n, some cl, some mk, some co => some ⟨n, cl, Int.ofNat mk, co⟩
          | _, _, _, _ => none
        | _ => none
      else none
  else none

/-- Parse one SQL statement over the `Students` table, by its
whitespace-separated words (after stripping outer whitespace and one
trailing semicolon).  Unrecognised text is a syntax error (`none`). -/
def parseStmt (s : Str) : Option Stmt :=
  match words (stripSemi (pyStrip s)) with
  | [a, b, c] =>
    if a = "DELETE".data ∧ b = "FROM".data ∧ c = "Students".data then some .deleteAll
    else if a = "DROP".data ∧ b = "TABLE".data ∧ c = "Students".data then some .dropTable
    else none
  | [a, b, c, d] =>
    if a = "SELECT".data ∧ b = "COUNT(*)".data ∧ c = "FROM".data ∧ d = "Students".data then
      some .selectCount
    else if a = "SELECT".data ∧ b = "*".data ∧ c = "FROM".data ∧ d = "Students".data then
      some .selectAll
    else if a = "INSERT".data ∧ b = "INTO".data ∧ c = "Students".data then
      (parseValues d).map .insertRow
    else if a = "UPDATE".data ∧ b = "Students".data ∧ c = "SET".data then
      (parseSet d).map .updateMarksAll
    else none
  | [a, b, c, d, e] =>
    if a = "DELETE".data ∧ b = "FROM".data ∧ c = "Students".data ∧ d = "WHERE".data then
      (parseCond e).map .deleteWhere
    else none
  | [a, b, c, d, e, f] =>
    if a = "SELECT".data ∧ b = "*".data ∧ c = "FROM".data ∧ d = "Students".data
        ∧ e = "WHERE".data then
      (parseCond f).map .selectWhere
    else if a = "UPDATE".data ∧ b = "Students".data ∧ c = "SET".data ∧ e = "WHERE".data then
      match parseSet d, parseCond f with
      | some m, some x => some (.updateMarksWhere m x)
      | _, _ => none
    else none
  | _ => none

/-! ### The sqlite3 engine model and `execute_sql` -/

/-- The text remaining after the first semicolon that lies outside a
single-quoted literal, if any. -/
def restAfterSemi : Bool → Str → Option Str
  | _, [] => none
  | inQ, c :: cs =>
    if c == squote then restAfterSemi (!inQ) cs
    else if c == ';' then (if inQ then restAfterSemi inQ cs else some cs)
    else restAfterSemi inQ cs

/-- `Cursor.execute` accepts a single statement: the text holds more
than one when non-whitespace follows the first top-level semicolon. -/
def multiStmt (s : Str) : Bool :=
  match restAfterSemi false s with
  | none => false
  | some r => r.any (fun c => !c.isWhitespace)

/-- An exception raised by the database engine. -/
inductive EngErr where
  /-- `ProgrammingError`: the SQL text holds more than one statement. -/
  | multipleStatements
  /-- `OperationalError`: malformed SQL. -/
  | malformedSql
  /-- `OperationalError`: no such table `Students`. -/
  | noSuchTable
deriving DecidableEq

/-- The model of `cursor.execute(sql)` followed by `cursor.fetchall()`:
reject multi-statement text, parse the single statement, and execute it
against the current database state.  On success: the new state and the
fetched rows. -/
def engineExec (sql : Str) (db : DB) : Except EngErr (DB × List Row) :=
  if multiStmt sql then .error .multipleStatements
  else
    match parseStmt sql with
    | none => .error .malformedSql
    | some st =>
      match db with
      | none => .error .noSuchTable
      | some rows => .ok (execStmt st rows)

instance {ε α : Type} [DecidableEq ε] [DecidableEq α] : DecidableEq (Except ε α) :=
  fun a b =>
    match a, b with
    | .error e, .error f =>
      if h : e = f then .isTrue (by rw [h]) else .isFalse (by simp [h])
    | .error _, .ok _ => .isFalse (by simp)
    | .ok _, .error _ => .isFalse (by simp)
    | .ok x, .ok y =>
      if h : x = y then .isTrue (by rw [h]) else .isFalse (by simp [h])

/-- The observable outcome of one `execute_sql(sql, db_path)` call:
the value returned (or the exception propagated), the database state
afterwards, and whether the connection was opened and closed. -/
structure ExecResult where
  result : Except EngErr (List Row)
  db' : DB
  connOpened : Bool
  connClosed : Bool
deriving DecidableEq

/-- `execute_sql(sql, db_path)`: open a connection, execute the string
as-is, fetch all rows, close the connection, return the rows.  When
execution raises, the exception propagates and the `conn.close()` line
is never reached. -/
def execute_sql (sql : Str) (db : DB) : ExecResult :=
  match engineExec sql db with
  | .error e => ⟨.error e, db, true, false⟩
  | .ok (d, rows) => ⟨.ok rows, d, true, true⟩

/-! ### The query page and the application shell -/

/-- An exception reaching the `except` handler of `page_query`. -/
inductive PyExn where
  | genExn (e : GenErr)
  | dbExn (e : EngErr)
deriving DecidableEq

/-- What the query page displays after one interaction. -/
inductive QueryOutcome where
  /-- The guard `if submit and question:` was false: nothing ran. -/
  | idle
  /-- The generated SQL and the result table were displayed. -/
  | success (sql : Str) (rows : List Row)
  /-- The caught exception was displayed as an error message. -/
  | errored (e : PyExn)
deriving DecidableEq

/-- The outcome of one `page_query()` run: what was displayed, the
database state afterwards, and how many generation calls and database
accesses were performed. -/
structure PageResult where
  outcome : QueryOutcome
  db' : DB
  genCalls : Nat
  dbCalls : Nat
deriving DecidableEq

/-- `page_query()`: when the button was pressed and the question text
is non-empty (Python truthiness), run `get_sql_query` then
`execute_sql` inside a single `try`/`except Exception` boundary; any
exception from either step is displayed as an error message and the
function returns normally. -/
def page_query (gen : Str → Except GenErr Str) (submit : Bool) (question : Str)
    (db : DB) : PageResult :=
  if submit && !question.isEmpty then
    match get_sql_query gen question with
    | .error e => ⟨.errored (.genExn e), db, 1, 0⟩
    | .ok sql =>
      let r := execute_sql sql db
      match r.result with
      | .error e => ⟨.errored (.dbExn e), r.db', 1, 1⟩
      | .ok rows => ⟨.success sql rows, r.db', 1, 1⟩
  else ⟨.idle, db, 0, 0⟩

/-- The environment variable read at startup. -/
def googleApiKey : Str := "GOOGLE_API_KEY".data

/-- The startup error message displayed when the credential is absent. -/
def apiKeyErrMsg : Str := "❌ GOOGLE_API_KEY not found in .env file".data

/-- The outcome of one full run of the script: the startup error (if
any), whether `genai.configure` ran, and the page interaction result. -/
structure AppResult where
  startupError : Option Str
  configured : Bool
  page : PageResult
deriving DecidableEq

/-- One run of the script: the module-level startup (read
`GOOGLE_API_KEY`; on `None` or empty, `st.error` then `st.stop()`
before `genai.configure`), then `main()`'s sidebar dispatch.  `env` is
`os.getenv`, `gen` the generation oracle, `choice` the sidebar
selection, and `submit`/`question`/`db` the query page inputs. -/
def app_run (env : Str → Option Str) (gen : Str → Except GenErr Str) (choice : Str)
    (submit : Bool) (question : Str) (db : DB) : AppResult :=
  match env googleApiKey with
  | none => ⟨some apiKeyErrMsg, false, ⟨.idle, db, 0, 0⟩⟩
  | some k =>
    if k.isEmpty then ⟨some apiKeyErrMsg, false, ⟨.idle, db, 0, 0⟩⟩
    else if choice = "Home".data then ⟨none, true, ⟨.idle, db, 0, 0⟩⟩
    else if choice = "About".data then ⟨none, true, ⟨.idle, db, 0, 0⟩⟩
    else ⟨none, true, page_query gen submit question db⟩

/-! ### Concrete data used by witnesses and counterexamples -/

/-- A one-row database: John, class BCom, 85 marks, Google. -/
def db0 : DB := some [⟨"John".data, "BCom".data, 85, "Google".data⟩]

/-- `SELECT COUNT(*) FROM Students;` — the prompt's worked example for
"How many entries are present?". -/
def countSql : Str := "SELECT COUNT(*) FROM Students;".data

/-- `DELETE FROM Students WHERE class='MCom';` — a write statement
whose condition matches no row of `db0`. -/
def delMComSql : Str :=
  "DELETE FROM Students WHERE class=".data ++ [squote] ++ "MCom".data ++ [squote] ++ ";".data

/-- `DROP TABLE Students;` — a write statement. -/
def dropSql : Str := "DROP TABLE Students;".data

/-- A generation oracle that always raises (network failure). -/
def genFail : Str → Except GenErr Str := fun _ => .error ⟨"network down".data⟩

/-- An environment with no variables set. -/
def envNone : Str → Option Str := fun _ => none

/-- The row list of `db0`. -/
def students0 : List Student := [⟨"John".data, "BCom".data, 85, "Google".data⟩]

/-- Two statements in one string. -/
def twoStmtSql : Str := "SELECT * FROM Students; DROP TABLE Students;".data

/-! ## Lemmas about the string primitives -/

-- Sanity checks that the embedding evaluates on concrete data.
example : fenceSql = bTick :: bTick :: bTick :: 's' :: 'q' :: 'l' :: [] := by decide
example : fence = bTick :: bTick :: bTick :: [] := by decide
example : hasPrefix "ab".data "abc".data = true := by decide
example : pyStrip "  a b  ".data = "a b".data := by decide
-- Sanity checks on the parser and engine.
example : parseStmt countSql = some .selectCount := by decide
example : parseStmt delMComSql = some (.deleteWhere "MCom".data) := by decide
example : parseStmt dropSql = some .dropTable := by decide
example : parseStmt "SELECT * FROM Students".data = some .selectAll := by decide
example : parseStmt "HELLO".data = none := by decide
example : multiStmt delMComSql = false := by decide
example : multiStmt "SELECT * FROM Students; DROP TABLE Students;".data = true := by decide
example : engineExec countSql db0 = .ok (db0, [[.int 1]]) := by decide
example :
    parseStmt ("INSERT INTO Students VALUES(".data ++ [squote] ++ "A".data ++ [squote]
      ++ ",".data ++ [squote] ++ "B".data ++ [squote] ++ ",7,".data ++ [squote]
      ++ "C".data ++ [squote] ++ ")".data)
    = some (.insertRow ⟨"A".data, "B".data, 7, "C".data⟩) := by decide

theorem hasPrefix_append_self (p t : Str) : hasPrefix p (p ++ t) = true := by
  induction p with
  | nil => rfl
  | cons a as ih => simp [hasPrefix, ih]

theorem length_le_of_hasPrefix (p : Str) : ∀ s : Str, hasPrefix p s = true →
    p.length ≤ s.length := by
  induction p with
  | nil => intro s _; simp
  | cons a as ih =>
    intro s h
    cases s with
    | nil => simp [hasPrefix] at h
    | cons b bs =>
      simp only [hasPrefix, Bool.and_eq_true] at h
      simpa using ih bs h.2

theorem removeAll_nil (pat : Str) : removeAll pat [] = [] := by
  rw [removeAll]

/-- A string shorter than the pattern is left unchanged. -/
theorem removeAll_of_short (pat : Str) : ∀ s : Str, s.length < pat.length →
    removeAll pat s = s := by
  intro s
  induction s with
  | nil => intro _; rw [removeAll]
  | cons c cs ih =>
    intro h
    have hp : hasPrefix pat (c :: cs) = false := by
      cases hp : hasPrefix pat (c :: cs)
      · rfl
      · exact absurd (length_le_of_hasPrefix pat _ hp) (by omega)
    rw [removeAll]
    simp only [hp, Bool.false_eq_true, if_false]
    rw [ih (by simp at h ⊢; omega)]

/-- An occurrence of the pattern at the head of the string is removed
and scanning resumes after it. -/
theorem removeAll_cancel (c : Char) (p t : Str) :
    removeAll (c :: p) ((c :: p) ++ t) = removeAll (c :: p) t := by
  rw [List.cons_append, removeAll]
  rw [show hasPrefix (c :: p) (c :: (p ++ t)) = true from by
        simp [hasPrefix, hasPrefix_append_self]]
  simp only [if_true, List.length_cons, Nat.add_sub_cancel]
  rw [List.drop_left]

/-- A region that never contains the pattern's first character is
copied through unchanged. -/
theorem removeAll_skip (c : Char) (p : Str) : ∀ xs t : Str, c ∉ xs →
    removeAll (c :: p) (xs ++ t) = xs ++ removeAll (c :: p) t := by
  intro xs
  induction xs with
  | nil => intro t _; rfl
  | cons x xs ih =>
    intro t h
    simp only [List.mem_cons, not_or] at h
    have hcx : (c == x) = false := by
      simp only [beq_eq_false_iff_ne, ne_eq]
      exact h.1
    rw [List.cons_append, removeAll]
    simp only [hasPrefix, hcx, Bool.false_and, Bool.false_eq_true, if_false]
    rw [ih t h.2, List.cons_append]

theorem dropWhile_append_of_all (p : Char → Bool) (w s : Str)
    (h : ∀ c ∈ w, p c = true) :
    List.dropWhile p (w ++ s) = List.dropWhile p s := by
  induction w with
  | nil => rfl
  | cons a as ih =>
    rw [List.cons_append, List.dropWhile_cons, if_pos (h a (List.mem_cons_self a as))]
    exact ih fun c hc => h c (List.mem_cons_of_mem a hc)

theorem mem_of_mem_dropWhile (p : Char → Bool) (c : Char) : ∀ s : Str,
    c ∈ List.dropWhile p s → c ∈ s := by
  intro s
  induction s with
  | nil => intro h; exact h
  | cons a l ih =>
    intro h
    rw [List.dropWhile_cons] at h
    by_cases hp : p a = true
    · rw [if_pos hp] at h
      exact List.mem_cons_of_mem a (ih h)
    · rw [if_neg hp] at h
      exact h

theorem mem_of_mem_pyStrip (c : Char) (s : Str) (h : c ∈ pyStrip s) : c ∈ s := by
  unfold pyStrip at h
  rw [List.mem_reverse] at h
  have h2 := mem_of_mem_dropWhile _ _ _ h
  rw [List.mem_reverse] at h2
  exact mem_of_mem_dropWhile _ _ _ h2

/-- Stripping a string that is whitespace, then a block with
non-whitespace first and last characters, then whitespace, yields
exactly the block. -/
theorem pyStrip_sandwich (w1 w2 m : Str)
    (h1 : ∀ c ∈ w1, Char.isWhitespace c = true)
    (h2 : ∀ c ∈ w2, Char.isWhitespace c = true)
    (a b : Char) (m1 m2 : Str)
    (hm : m = a :: m1) (hmr : m.reverse = b :: m2)
    (ha : a.isWhitespace = false) (hb : b.isWhitespace = false) :
    pyStrip (w1 ++ (m ++ w2)) = m := by
  unfold pyStrip
  rw [dropWhile_append_of_all _ w1 _ h1, hm, List.cons_append, List.dropWhile_cons,
    if_neg (by rw [ha]; exact fun h => nomatch h), ← List.cons_append, ← hm,
    List.reverse_append,
    dropWhile_append_of_all _ w2.reverse _ (fun c hc => h2 c (List.mem_reverse.mp hc)),
    hmr, List.dropWhile_cons, if_neg (by rw [hb]; exact fun h => nomatch h), ← hmr,
    List.reverse_reverse]

/-! ## The claims -/

/-- C1: for every raw model response wrapped in triple-backtick
markdown fencing with a language tag (optionally surrounded by
whitespace), the cleaned string returned by `get_sql_query` contains no
backtick characters; the cleaning strips leading/trailing whitespace
and removes every occurrence of the literal substrings `"```sql"` and
`"```"`. -/
theorem C1_fenced_response_cleans_to_no_backtick
    (w1 w2 body : Str)
    (h1 : ∀ c ∈ w1, Char.isWhitespace c = true)
    (h2 : ∀ c ∈ w2, Char.isWhitespace c = true)
    (hb : bTick ∉ body) :
    bTick ∉ clean (w1 ++ (fenceSql ++ body ++ fence ++ w2)) := by
  have hassoc : w1 ++ (fenceSql ++ body ++ fence ++ w2)
      = w1 ++ ((fenceSql ++ (body ++ fence)) ++ w2) := by
    simp [List.append_assoc]
  have hmr : (fenceSql ++ (body ++ fence)).reverse
      = bTick :: ((bTick :: bTick :: []) ++ (body.reverse ++ fenceSql.reverse)) := by
    rw [List.reverse_append, List.reverse_append,
      show fence.reverse = bTick :: bTick :: bTick :: [] from by decide, List.cons_append]
    simp [List.append_assoc]
  have hstrip : pyStrip (w1 ++ ((fenceSql ++ (body ++ fence)) ++ w2))
      = fenceSql ++ (body ++ fence) :=
    pyStrip_sandwich w1 w2 _ h1 h2 bTick bTick
      ("``sql".data ++ (body ++ fence)) ((bTick :: bTick :: []) ++ (body.reverse ++ fenceSql.reverse))
      (by rw [show fenceSql = bTick :: "``sql".data from by decide, List.cons_append])
      hmr (by decide) (by decide)
  have hr1 : removeAll fenceSql (fenceSql ++ (body ++ fence)) = body ++ fence := by
    rw [show fenceSql = bTick :: "``sql".data from by decide, removeAll_cancel,
      removeAll_skip bTick _ body fence hb,
      removeAll_of_short _ fence (by decide)]
  have hr2 : removeAll fence (body ++ fence) = body := by
    have h5 : removeAll fence fence = [] := by
      have h := removeAll_cancel bTick (bTick :: bTick :: []) []
      rw [List.append_nil, show bTick :: bTick :: bTick :: [] = fence from by decide,
        removeAll_nil] at h
      exact h
    rw [show fence = bTick :: bTick :: bTick :: [] from by decide,
      removeAll_skip bTick _ body _ hb,
      show bTick :: bTick :: bTick :: [] = fence from by decide, h5, List.append_nil]
  rw [hassoc]
  unfold clean
  rw [hstrip, hr1, hr2]
  exact fun hmem => hb (mem_of_mem_pyStrip _ _ hmem)

/-- Witness for C1 at a concrete fenced response. -/
theorem C1_witness :
    bTick ∉ clean (" ".data ++ (fenceSql ++ "SELECT * FROM Students".data ++ fence ++ "\n".data)) :=
  C1_fenced_response_cleans_to_no_backtick " ".data "\n".data "SELECT * FROM Students".data
    (by decide) (by decide) (by decide)

/-- C2 (counterexample to the claim as stated): the statement
`DELETE FROM Students WHERE class='MCom'` is a write, yet executing it
against `db0` (whose only row has class `BCom`) leaves the post-call
database state equal to the pre-call state. -/
theorem C2_counterexample :
    Stmt.isWrite (.deleteWhere "MCom".data) = true ∧
    parseStmt delMComSql = some (.deleteWhere "MCom".data) ∧
    (execute_sql delMComSql db0).db' = db0 :=
  ⟨by decide, by decide, by decide⟩

/-- C2 (amended): every SQL string parsing to a write statement is
executed unconditionally — the result and post-state are exactly the
engine's execution of that statement, with no read-only check or
confirmation step interposed — and a write may mutate the persistent
state (an `INSERT` always appends a row, changing the table), but the
post-call state is not always different from the pre-call state. -/
theorem C2_write_statements_execute_unchecked
    (sql : Str) (w : Stmt) (db : DB) (rows : List Student)
    (hp : parseStmt sql = some w) (_hw : Stmt.isWrite w = true)
    (hm : multiStmt sql = false) (hdb : db = some rows) :
    execute_sql sql db = ⟨.ok (execStmt w rows).2, (execStmt w rows).1, true, true⟩ ∧
    ∀ st : Student, (execStmt (.insertRow st) rows).1 = some (rows ++ [st])
      ∧ some (rows ++ [st]) ≠ some rows := by
  constructor
  · have he : engineExec sql db = .ok (execStmt w rows) := by
      unfold engineExec
      rw [hm, hp, hdb]
      simp
    unfold execute_sql
    rw [he]
  · intro st
    refine ⟨rfl, fun hEq => ?_⟩
    rw [Option.some.injEq] at hEq
    have hlen : (rows ++ [st]).length = rows.length := by rw [hEq]
    simp at hlen

/-- Witness for the amended C2 at `DROP TABLE Students;` on `db0`. -/
theorem C2_witness :
    (execute_sql dropSql db0
        = ⟨.ok (execStmt .dropTable students0).2, (execStmt .dropTable students0).1, true, true⟩ ∧
      ∀ st : Student, (execStmt (.insertRow st) students0).1 = some (students0 ++ [st])
        ∧ some (students0 ++ [st]) ≠ some students0) :=
  C2_write_statements_execute_unchecked dropSql .dropTable db0 students0
    (by decide) (by decide) (by decide) rfl

/-- C3: whenever statement execution raises, `execute_sql` propagates
the exception, the database state is unchanged, and the opened
connection is never closed (the `conn.close()` line is only on the
success path). -/
theorem C3_error_path_leaks_connection
    (sql : Str) (db : DB) (e : EngErr) (h : engineExec sql db = .error e) :
    execute_sql sql db = ⟨.error e, db, true, false⟩ := by
  unfold execute_sql
  rw [h]

/-- Witness for C3 at malformed SQL. -/
theorem C3_witness :
    engineExec "HELLO".data db0 = .error .malformedSql ∧
    execute_sql "HELLO".data db0 = ⟨.error .malformedSql, db0, true, false⟩ :=
  ⟨by decide, C3_error_path_leaks_connection "HELLO".data db0 .malformedSql (by decide)⟩

/-- C4: whenever execution succeeds, `execute_sql` opens a new
connection, executes the given string verbatim, fetches all rows,
closes the connection, and returns exactly those rows (with the
post-state the engine's). -/
theorem C4_success_path_returns_fetched_rows
    (sql : Str) (db d : DB) (rows : List Row) (h : engineExec sql db = .ok (d, rows)) :
    execute_sql sql db = ⟨.ok rows, d, true, true⟩ := by
  unfold execute_sql
  rw [h]

/-- Witness for C4 at `SELECT COUNT(*) FROM Students;` on `db0`. -/
theorem C4_witness :
    execute_sql countSql db0 = ⟨.ok [[.int 1]], db0, true, true⟩ :=
  C4_success_path_returns_fetched_rows countSql db0 db0 [[.int 1]] (by decide)

/-- C5: inside the query page's single `try`/`except` boundary, an
exception from the translation step or from the execution step is
caught and displayed as an error message; `page_query` returns normally
(the screen stays functional for resubmission) and no exception from
either step escapes. -/
theorem C5_catch_all_boundary
    (gen : Str → Except GenErr Str) (q : Str) (db : DB) (hq : q ≠ []) :
    (∀ e, get_sql_query gen q = .error e →
        page_query gen true q db = ⟨.errored (.genExn e), db, 1, 0⟩) ∧
    (∀ sql e, get_sql_query gen q = .ok sql → engineExec sql db = .error e →
        page_query gen true q db = ⟨.errored (.dbExn e), db, 1, 1⟩) := by
  have hq' : q.isEmpty = false := by
    cases q
    · exact absurd rfl hq
    · rfl
  constructor
  · intro e he
    unfold page_query
    rw [hq', he]
    simp
  · intro sql e hs he
    unfold page_query
    rw [hq', hs]
    simp only [Bool.not_false, Bool.and_self, if_true]
    rw [show execute_sql sql db = ⟨.error e, db, true, false⟩ from
      C3_error_path_leaks_connection sql db e he]

/-- Witness for C5 at a failing generation call. -/
theorem C5_witness :
    page_query genFail true "hi".data db0
      = ⟨.errored (.genExn ⟨"network down".data⟩), db0, 1, 0⟩ :=
  (C5_catch_all_boundary genFail "hi".data db0 (by decide)).1 ⟨"network down".data⟩ rfl

/-- C6: whenever the `GOOGLE_API_KEY` environment variable is absent,
the run displays the startup error and halts before `genai.configure`,
and no generation call is ever attempted in that run. -/
theorem C6_missing_key_halts_before_any_network_call
    (env : Str → Option Str) (gen : Str → Except GenErr Str) (choice : Str)
    (submit : Bool) (q : Str) (db : DB) (h : env googleApiKey = none) :
    app_run env gen choice submit q db = ⟨some apiKeyErrMsg, false, ⟨.idle, db, 0, 0⟩⟩ := by
  unfold app_run
  rw [h]

/-- Witness for C6 at an empty environment. -/
theorem C6_witness :
    app_run envNone genFail "Home".data true "hi".data db0
      = ⟨some apiKeyErrMsg, false, ⟨.idle, db0, 0, 0⟩⟩ :=
  C6_missing_key_halts_before_any_network_call envNone genFail "Home".data true "hi".data db0 rfl

/-- C7: on a database whose `Students` table holds `K` rows, executing
`SELECT COUNT(*) FROM Students;` (the prompt's deterministic
translation of the count example question) returns exactly one row
whose single value is `K`. -/
theorem C7_count_query_returns_row_count (rows : List Student) :
    execute_sql countSql (some rows)
      = ⟨.ok [[.int rows.length]], some rows, true, true⟩ := by
  unfold execute_sql engineExec
  rw [show multiStmt countSql = false from by decide,
    show parseStmt countSql = some .selectCount from by decide]
  simp [execStmt]

/-- C8: the translate-then-execute sequence, run twice against the same
database state, yields the same outcome (same row set) — under the
hypothesis that the remote completion answers the identical request
identically, which the design does not itself guarantee. -/
theorem C8_roundtrip_deterministic_given_deterministic_model
    (gen1 gen2 : Str → Except GenErr Str) (q : Str) (db : DB)
    (h : gen1 (PROMPT ++ questionMarker ++ q) = gen2 (PROMPT ++ questionMarker ++ q)) :
    page_query gen1 true q db = page_query gen2 true q db := by
  unfold page_query get_sql_query
  rw [h]

/-- Witness for C8 at an oracle compared to itself. -/
theorem C8_witness :
    page_query genFail true "hi".data db0 = page_query genFail true "hi".data db0 :=
  C8_roundtrip_deterministic_given_deterministic_model genFail genFail "hi".data db0 rfl

/-- C9: a string holding more than one SQL statement makes
`cursor.execute` raise, so `execute_sql` propagates the exception, the
database state is untouched, and at most one statement is ever executed
per call. -/
theorem C9_multi_statement_rejected (sql : Str) (db : DB) (h : multiStmt sql = true) :
    execute_sql sql db = ⟨.error .multipleStatements, db, true, false⟩ := by
  unfold execute_sql engineExec
  rw [h]
  simp

/-- Witness for C9 at two statements in one string. -/
theorem C9_witness :
    multiStmt twoStmtSql = true ∧
    execute_sql twoStmtSql db0 = ⟨.error .multipleStatements, db0, true, false⟩ :=
  ⟨by decide, C9_multi_statement_rejected twoStmtSql db0 (by decide)⟩

/-- C10: with an empty question text (or without the button pressed),
the query page performs neither the generation call nor any database
access — the generate-and-execute sequence runs only when the button
was pressed and the question is non-empty. -/
theorem C10_empty_question_runs_nothing
    (gen : Str → Except GenErr Str) (q : Str) (db : DB) (submit : Bool)
    (h : q = [] ∨ submit = false) :
    page_query gen submit q db = ⟨.idle, db, 0, 0⟩ := by
  unfold page_query
  rcases h with h | h
  · rw [h]
    simp
  · rw [h]
    simp

/-- Witness for C10 at an empty question with the button pressed. -/
theorem C10_witness :
    page_query genFail true [] db0 = ⟨.idle, db0, 0, 0⟩ :=
  C10_empty_question_runs_nothing genFail [] db0 true (Or.inl rfl)

end IntelliSQL
